import Mathlib

/-!
Verification of the scrcpy-vscode streaming/control engine claims.
Byte buffers are modelled as `List Nat`.
-/

/-- Big-endian 32-bit read, as `Buffer.readUInt32BE` recombines four bytes. -/
def readU32BE (b0 b1 b2 b3 : Nat) : Nat :=
  ((b0 * 256 + b1) * 256 + b2) * 256 + b3

/-- Big-endian 32-bit encoding of a length, as the helper writes it. -/
def u32BE (n : Nat) : List Nat :=
  [n / 2 ^ 24 % 256, n / 2 ^ 16 % 256, n / 2 ^ 8 % 256, n % 256]

/-- A framed message of the iOS helper binary protocol:
1 type byte, 4-byte big-endian payload length, payload. -/
structure HelperMessage where
  type : Nat
  payload : List Nat
  deriving DecidableEq, Repr

/-- Frame a single message: type byte, length prefix, payload. -/
def encodeMessage (m : HelperMessage) : List Nat :=
  m.type :: (u32BE m.payload.length ++ m.payload)

/-- Concatenation of framed messages. -/
def encodeMessages (ms : List HelperMessage) : List Nat :=
  (ms.map encodeMessage).flatten

/-- `readUInt32BE(1)`: the declared payload length of the frame at the
front of the buffer. -/
def declaredLen (buf : List Nat) : Nat :=
  readU32BE (buf.getD 1 0) (buf.getD 2 0) (buf.getD 3 0) (buf.getD 4 0)

/-- The `while` loop of `iOSConnection.handleHelperData`: repeatedly pop
complete frames (at least 5 header bytes and the declared payload
available) off the front of the buffer; stop at the first incomplete
frame and keep it buffered. Returns the popped messages in order and the
residual buffer. -/
def drainBuffer (buf : List Nat) : List HelperMessage × List Nat :=
  if buf.length < 5 then ([], buf)
  else
    let len := declaredLen buf
    if buf.length < 5 + len then ([], buf)
    else
      let payload := (buf.drop 5).take len
      let rest := buf.drop (5 + len)
      let (ms, r) := drainBuffer rest
      (⟨buf.getD 0 0, payload⟩ :: ms, r)
termination_by buf.length
decreasing_by
  simp only [List.length_drop]
  omega

/-- One call of `iOSConnection.handleHelperData`: append the chunk to the
buffered bytes, then pop all complete frames. -/
def handleHelperData (buf chunk : List Nat) : List HelperMessage × List Nat :=
  drainBuffer (buf ++ chunk)

/-- Feed successive chunks through `handleHelperData`, accumulating the
delivered messages in order. -/
def feedChunks : List HelperMessage × List Nat → List (List Nat) →
    List HelperMessage × List Nat
  | st, [] => st
  | (ms, buf), c :: cs =>
      let (ms2, buf2) := handleHelperData buf c
      feedChunks (ms ++ ms2, buf2) cs

/-! ## Codec bitstream analyzer (`CodecUtils`)

Byte-level scanning of Annex-B buffers.  `& 0x1f` on a byte is written
`% 32`, and `(b >> 1) & 0x3f` is written `b / 2 % 64`; these agree with
the bitwise forms on all naturals.  Out-of-range reads use the
out-of-band default 256, but every access the loops perform is in
range. -/

/-- Video codec types. -/
inductive VideoCodec where
  | h264
  | h265
  | av1
  deriving DecidableEq, Repr

/-- Three-byte start code `00 00 01` at index `i`. -/
def isStartCode3 (d : List Nat) (i : Nat) : Bool :=
  d.getD i 256 == 0 && d.getD (i + 1) 256 == 0 && d.getD (i + 2) 256 == 1

/-- Four-byte start code `00 00 00 01` at index `i`. -/
def isStartCode4 (d : List Nat) (i : Nat) : Bool :=
  d.getD i 256 == 0 && d.getD (i + 1) 256 == 0 && d.getD (i + 2) 256 == 0 &&
    d.getD (i + 3) 256 == 1

/-- `CodecUtils.containsH264IDR`: scan indices `0 ≤ i < length - 4` for a
start code followed by a NAL unit of type 5 (IDR). -/
def containsH264IDR (d : List Nat) : Bool :=
  (List.range (d.length - 4)).any fun i =>
    (isStartCode3 d i || isStartCode4 d i) &&
      d.getD (i + (if d.getD (i + 2) 256 == 1 then 3 else 4)) 256 % 32 == 5

/-- `CodecUtils.containsH265IDR`: scan for a start code followed by an
H.265 unit of type 19 (`IDR_W_RADL`) or 20 (`IDR_N_LP`); the H.265 type
sits in bits 1–6 of the byte after the start code. -/
def containsH265IDR (d : List Nat) : Bool :=
  (List.range (d.length - 4)).any fun i =>
    (isStartCode3 d i || isStartCode4 d i) &&
      (let t := d.getD (i + (if d.getD (i + 2) 256 == 1 then 3 else 4)) 256 / 2 % 64
       t == 19 || t == 20)

/-- `CodecUtils.findH264SPS`: return the suffix starting at the first NAL
header byte of type 7 (SPS) that follows a start code, scanning indices
`0 ≤ i < length - 4`. -/
def findH264SPS (config : List Nat) : Option (List Nat) :=
  (List.range (config.length - 4)).findSome? fun i =>
    let off : Nat := if isStartCode3 config i then 3 else if isStartCode4 config i then 4 else 0
    if off > 0 then
      if config.getD (i + off) 256 % 32 == 7 then some (config.drop (i + off)) else none
    else none

/-- `CodecUtils.findH265ConfigNAL`: is there a start code followed by an
H.265 unit of type 32 (VPS), 33 (SPS) or 34 (PPS)? -/
def findH265ConfigNAL (config : List Nat) : Bool :=
  (List.range (config.length - 4)).any fun i =>
    let off : Nat := if isStartCode3 config i then 3 else if isStartCode4 config i then 4 else 0
    if off > 0 then
      let t := config.getD (i + off) 256 / 2 % 64
      t == 32 || t == 33 || t == 34
    else false

/-- `CodecUtils.detectCodec`: H.264 SPS wins, then H.265 config units,
else no detection (AV1 would need OBU parsing). -/
def detectCodec (config : List Nat) : Option VideoCodec :=
  if (findH264SPS config).isSome then some VideoCodec.h264
  else if findH265ConfigNAL config then some VideoCodec.h265
  else none

/-- `CodecUtils.containsKeyFrame`: keyframe scan per codec; AV1 is a
stated no-op returning false. -/
def containsKeyFrame (data : List Nat) (codec : VideoCodec) : Bool :=
  match codec with
  | VideoCodec.h264 => containsH264IDR data
  | VideoCodec.h265 => containsH265IDR data
  | VideoCodec.av1 => false

/-- The `frame_cropping` record of a parsed SPS. -/
structure FrameCrop where
  left : Int
  right : Int
  top : Int
  bottom : Int
  deriving DecidableEq, Repr

/-- The fields of the `h264-sps-parser` result that
`parseH264SPSDimensions` reads.  Numeric fields are JS numbers, modelled
as integers. -/
structure SPS where
  frame_mbs_only_flag : Int
  pic_width_in_mbs : Int
  pic_height_in_map_units : Int
  frame_cropping_flag : Bool
  frame_cropping : FrameCrop
  chroma_format_idc : Int
  deriving DecidableEq, Repr

/-- A thrown JS exception, carrying only its message. -/
structure JSError where
  msg : String
  deriving DecidableEq, Repr

/-- The arithmetic of the `try` block of
`CodecUtils.parseH264SPSDimensions` applied to a parsed SPS: macroblock
width/height, minus cropping scaled by chroma-dependent crop units. -/
def computeH264Dims (sps : SPS) : Int × Int :=
  let frameMbsOnly := sps.frame_mbs_only_flag
  let width := sps.pic_width_in_mbs * 16
  let height := sps.pic_height_in_map_units * 16 * (2 - frameMbsOnly)
  let crops :=
    if sps.frame_cropping_flag then
      let crop := sps.frame_cropping
      -- subWidthC/subHeightC default to (2, 2); chroma_format_idc 2 gives
      -- (2, 1) and 3 gives (1, 1)
      let sub : Int × Int :=
        if sps.chroma_format_idc = 2 then (2, 1)
        else if sps.chroma_format_idc = 3 then (1, 1)
        else (2, 2)
      let cropUnitX := sub.1
      let cropUnitY := sub.2 * (2 - frameMbsOnly)
      ((crop.left + crop.right) * cropUnitX, (crop.top + crop.bottom) * cropUnitY)
    else (0, 0)
  (width - crops.1, height - crops.2)

/-- `CodecUtils.parseH264SPSDimensions`, parametrised by the external
`h264-sps-parser` library (`parseSPS`), which may either return a parsed
SPS or throw.  The result type `Except JSError _` records whether the
function itself lets an exception escape; the source wraps the library
call and all subsequent arithmetic in `try ... catch { return null }`. -/
def parseH264SPSDimensions (parseSPS : List Nat → Except JSError SPS)
    (config : List Nat) : Except JSError (Option (Int × Int)) :=
  match findH264SPS config with
  | none => Except.ok none
  | some spsData =>
      match parseSPS spsData with
      | Except.error _ => Except.ok none
      | Except.ok sps => Except.ok (some (computeH264Dims sps))

/-- A library behaviour that throws on every input (a maximally malformed
configuration unit). -/
def errLib : List Nat → Except JSError SPS :=
  fun _ => Except.error ⟨"Failed to parse H.264 SPS"⟩

/-- A concrete parsed SPS used to exercise the dimension formula. -/
def sampleSPS : SPS :=
  { frame_mbs_only_flag := 1
    pic_width_in_mbs := 120
    pic_height_in_map_units := 68
    frame_cropping_flag := true
    frame_cropping := { left := 0, right := 0, top := 0, bottom := 4 }
    chroma_format_idc := 1 }

/-- A library behaviour that parses every input to `sampleSPS`. -/
def okLib : List Nat → Except JSError SPS :=
  fun _ => Except.ok sampleSPS

/-- Crop-unit scale factors as the claim states them: `(SubWidthC,
SubHeightC)` is `(2, 2)` for `chroma_format_idc` 1 and by default,
`(2, 1)` for 2, and `(1, 1)` for 3. -/
def specCropUnits (chroma : Int) : Int × Int :=
  if chroma = 1 then (2, 2)
  else if chroma = 2 then (2, 1)
  else if chroma = 3 then (1, 1)
  else (2, 2)

/-- The claim's dimension formula, written from the claim's words:
`width = pic_width_in_mbs*16 - (crop_left+crop_right)*SubWidthC` and
`height = pic_height_in_map_units*16*(2-frame_mbs_only_flag) -
(crop_top+crop_bottom)*SubHeightC*(2-frame_mbs_only_flag)`, with no
cropping subtracted when `frame_cropping_flag` is unset. -/
def specH264Dims (sps : SPS) : Int × Int :=
  let sub := specCropUnits sps.chroma_format_idc
  let f := 2 - sps.frame_mbs_only_flag
  if sps.frame_cropping_flag then
    (sps.pic_width_in_mbs * 16 -
       (sps.frame_cropping.left + sps.frame_cropping.right) * sub.1,
     sps.pic_height_in_map_units * 16 * f -
       (sps.frame_cropping.top + sps.frame_cropping.bottom) * sub.2 * f)
  else
    (sps.pic_width_in_mbs * 16, sps.pic_height_in_map_units * 16 * f)

/-- A start code followed by an H.264 NAL header whose low 5 bits are
`t`, at index `i`.  (The two start-code forms are mutually exclusive at a
fixed index, since they disagree on the byte at `i + 2`.) -/
def h264UnitAt (d : List Nat) (i t : Nat) : Prop :=
  (isStartCode3 d i = true ∧ d.getD (i + 3) 256 % 32 = t) ∨
    (isStartCode4 d i = true ∧ d.getD (i + 4) 256 % 32 = t)

/-- A start code followed by an H.265 NAL header whose bits 1–6 are `t`,
at index `i`. -/
def h265UnitAt (d : List Nat) (i t : Nat) : Prop :=
  (isStartCode3 d i = true ∧ d.getD (i + 3) 256 / 2 % 64 = t) ∨
    (isStartCode4 d i = true ∧ d.getD (i + 4) 256 / 2 % 64 = t)

instance (d : List Nat) (i t : Nat) : Decidable (h264UnitAt d i t) := by
  unfold h264UnitAt
  infer_instance

instance (d : List Nat) (i t : Nat) : Decidable (h265UnitAt d i t) := by
  unfold h265UnitAt
  infer_instance

/-! ## Gesture translator (`InputHandler`)

Coordinates are modelled as exact rationals.  `Math.sqrt` appears only in
`calculateDistance`, whose result is stored in the write-only field
`initialPinchDistance`; the model keeps the squared distance, which
determines the same state evolution. -/

/-- The canvas bounding rectangle (`getBoundingClientRect`). -/
structure Rect where
  left : ℚ
  top : ℚ
  width : ℚ
  height : ℚ
  deriving DecidableEq, Repr

/-- A DOM touch point: identifier plus client coordinates. -/
structure TouchPoint where
  identifier : Nat
  clientX : ℚ
  clientY : ℚ
  deriving DecidableEq, Repr

/-- A DOM touch event: current contacts and ended contacts. -/
structure TouchEvt where
  touches : List TouchPoint
  changedTouches : List TouchPoint
  deriving DecidableEq, Repr

/-- A DOM wheel event. -/
structure WheelEvt where
  clientX : ℚ
  clientY : ℚ
  deltaX : ℚ
  deltaY : ℚ
  deltaMode : Nat
  deriving DecidableEq, Repr

/-- Touch actions forwarded to the device protocol. -/
inductive TouchAction where
  | down
  | move
  | up
  deriving DecidableEq, Repr

/-- One `onMultiTouch` callback invocation: both contacts plus action. -/
structure MultiTouchEmit where
  x1 : ℚ
  y1 : ℚ
  x2 : ℚ
  y2 : ℚ
  action : TouchAction
  deriving DecidableEq, Repr

/-- One `onScroll` callback invocation. -/
structure ScrollEmit where
  x : ℚ
  y : ℚ
  deltaX : ℚ
  deltaY : ℚ
  deriving DecidableEq, Repr

/-- `getNormalizedCoordsFromTouch`: position relative to the canvas,
normalized to `[0,1]` and clamped. -/
def getNormalizedCoordsFromTouch (rect : Rect) (t : TouchPoint) : ℚ × ℚ :=
  let x := t.clientX - rect.left
  let y := t.clientY - rect.top
  (max 0 (min 1 (x / rect.width)), max 0 (min 1 (y / rect.height)))

/-- `getNormalizedCoordsFromMouse`, identical arithmetic for wheel
events. -/
def getNormalizedCoordsFromMouse (rect : Rect) (e : WheelEvt) : ℚ × ℚ :=
  let x := e.clientX - rect.left
  let y := e.clientY - rect.top
  (max 0 (min 1 (x / rect.width)), max 0 (min 1 (y / rect.height)))

/-- `calculateDistance` squared: `dx*dx + dy*dy` (the source takes the
square root of this; only the squared value is ever needed). -/
def distanceSq (p1 p2 : ℚ × ℚ) : ℚ :=
  (p2.1 - p1.1) * (p2.1 - p1.1) + (p2.2 - p1.2) * (p2.2 - p1.2)

/-- A JS `Map` as an insertion-ordered association list: `set` updates in
place or appends. -/
def mapSet (m : List (Nat × (ℚ × ℚ))) (k : Nat) (v : ℚ × ℚ) : List (Nat × (ℚ × ℚ)) :=
  if m.any (fun p => p.1 == k) then m.map (fun p => if p.1 == k then (k, v) else p)
  else m ++ [(k, v)]

/-- A JS `Map.delete`. -/
def mapDelete (m : List (Nat × (ℚ × ℚ))) (k : Nat) : List (Nat × (ℚ × ℚ)) :=
  m.filter (fun p => p.1 != k)

/-- A JS `Map.values()` in insertion order. -/
def mapValues (m : List (Nat × (ℚ × ℚ))) : List (ℚ × ℚ) :=
  m.map (fun p => p.2)

/-- The multi-touch state of `InputHandler`: `isPinching`,
`activeTouches`, and the (write-only, squared) initial pinch distance. -/
structure InputTouchState where
  isPinching : Bool
  activeTouches : List (Nat × (ℚ × ℚ))
  initialPinchDistanceSq : ℚ
  deriving DecidableEq, Repr

/-- The state before any touch arrives. -/
def freshTouchState : InputTouchState :=
  { isPinching := false, activeTouches := [], initialPinchDistanceSq := 0 }

/-- `InputHandler.onTouchStart` (with `onMultiTouch` wired): two contacts
begin a pinch and emit a `down` pair; one contact clears the pinch
state; more than two contacts synthesizes an `up` pair for the two
tracked contacts (if exactly two are stored) and clears the state. -/
def onTouchStart (rect : Rect) (s : InputTouchState) (e : TouchEvt) :
    InputTouchState × List MultiTouchEmit :=
  match e.touches with
  | [touch1, touch2] =>
      let coords1 := getNormalizedCoordsFromTouch rect touch1
      let coords2 := getNormalizedCoordsFromTouch rect touch2
      let m := mapSet (mapSet s.activeTouches touch1.identifier coords1)
        touch2.identifier coords2
      ({ isPinching := true, activeTouches := m,
         initialPinchDistanceSq := distanceSq coords1 coords2 },
       [⟨coords1.1, coords1.2, coords2.1, coords2.2, TouchAction.down⟩])
  | [_] => ({ s with isPinching := false, activeTouches := [] }, [])
  | [] => (s, [])
  | _ =>
      let emits :=
        if s.isPinching then
          match mapValues s.activeTouches with
          | [a, b] => [⟨a.1, a.2, b.1, b.2, TouchAction.up⟩]
          | _ => []
        else []
      ({ s with isPinching := false, activeTouches := [] }, emits)

/-- `InputHandler.onTouchMove`: while pinching with exactly two contacts,
update both stored positions and emit a `move` pair. -/
def onTouchMove (rect : Rect) (s : InputTouchState) (e : TouchEvt) :
    InputTouchState × List MultiTouchEmit :=
  match s.isPinching, e.touches with
  | true, [touch1, touch2] =>
      let coords1 := getNormalizedCoordsFromTouch rect touch1
      let coords2 := getNormalizedCoordsFromTouch rect touch2
      let m := mapSet (mapSet s.activeTouches touch1.identifier coords1)
        touch2.identifier coords2
      ({ s with activeTouches := m },
       [⟨coords1.1, coords1.2, coords2.1, coords2.2, TouchAction.move⟩])
  | _, _ => (s, [])

/-- `InputHandler.onTouchEnd`: if pinching, emit the `up` pair from the
stored positions, clear the pinch state, then drop the ended contacts
from the map. -/
def onTouchEnd (s : InputTouchState) (e : TouchEvt) :
    InputTouchState × List MultiTouchEmit :=
  let step1 : InputTouchState × List MultiTouchEmit :=
    if s.isPinching then
      ({ isPinching := false, activeTouches := [], initialPinchDistanceSq := 0 },
       match mapValues s.activeTouches with
       | [a, b] => [⟨a.1, a.2, b.1, b.2, TouchAction.up⟩]
       | _ => [])
    else (s, [])
  let m := e.changedTouches.foldl (fun m t => mapDelete m t.identifier) step1.1.activeTouches
  ({ step1.1 with activeTouches := m }, step1.2)

/-- The three touch-event entry points. -/
inductive TouchEventKind where
  | start (e : TouchEvt)
  | move (e : TouchEvt)
  | finish (e : TouchEvt)
  deriving DecidableEq, Repr

/-- Dispatch one touch event. -/
def stepTouch (rect : Rect) (s : InputTouchState) :
    TouchEventKind → InputTouchState × List MultiTouchEmit
  | TouchEventKind.start e => onTouchStart rect s e
  | TouchEventKind.move e => onTouchMove rect s e
  | TouchEventKind.finish e => onTouchEnd s e

/-- Run a touch-event sequence, concatenating emissions in order. -/
def runTouch (rect : Rect) (s : InputTouchState) :
    List TouchEventKind → InputTouchState × List MultiTouchEmit
  | [] => (s, [])
  | ev :: evs =>
      let (s1, out) := stepTouch rect s ev
      let (s2, outs) := runTouch rect s1 evs
      (s2, out ++ outs)

/-- Modelled from the spec: the webview consumer of `onMultiTouch` (not
under src/) forwards the first tracked contact as protocol pointer id 0
and the second as pointer id 1, for every emitted pair. -/
def emitPointerIds (_m : MultiTouchEmit) : List Nat :=
  [0, 1]

/-! ## Scroll accumulation (`InputHandler.onWheelEvent`) -/

/-- The fixed scroll-step divisor. -/
def SCROLL_STEP : ℚ := 200

/-- The sub-pixel jitter threshold (0.0001). -/
def SCROLL_THRESHOLD : ℚ := 1 / 10000

/-- Pixel-normalized horizontal wheel delta: line mode (1) scales by 16,
page mode (2) by 100. -/
def wheelPixelDeltaX (e : WheelEvt) : ℚ :=
  if e.deltaMode = 1 then e.deltaX * 16
  else if e.deltaMode = 2 then e.deltaX * 100
  else e.deltaX

/-- Pixel-normalized vertical wheel delta. -/
def wheelPixelDeltaY (e : WheelEvt) : ℚ :=
  if e.deltaMode = 1 then e.deltaY * 16
  else if e.deltaMode = 2 then e.deltaY * 100
  else e.deltaY

/-- The scroll-relevant state of `InputHandler`; `scrollRafPending`
models `scrollRafId !== null`. -/
structure ScrollState where
  scrollBufferX : ℚ
  scrollBufferY : ℚ
  lastScrollX : ℚ
  lastScrollY : ℚ
  scrollRafPending : Bool
  deriving DecidableEq, Repr

/-- `InputHandler.onWheelEvent` (with `onScroll` wired): record the
position, normalize the deltas, divide by `SCROLL_STEP` and negate,
accumulate, and schedule a flush on the next animation frame.  Emits
nothing. -/
def onWheelEvent (rect : Rect) (s : ScrollState) (e : WheelEvt) : ScrollState :=
  let coords := getNormalizedCoordsFromMouse rect e
  let deltaX := -(wheelPixelDeltaX e) / SCROLL_STEP
  let deltaY := -(wheelPixelDeltaY e) / SCROLL_STEP
  { scrollBufferX := s.scrollBufferX + deltaX
    scrollBufferY := s.scrollBufferY + deltaY
    lastScrollX := coords.1
    lastScrollY := coords.2
    scrollRafPending := true }

/-- `InputHandler.processScrollBuffer`: clear the scheduled-flush flag,
then emit the accumulated deltas once if either magnitude exceeds the
threshold, resetting the buffer; otherwise emit nothing. -/
def processScrollBuffer (s : ScrollState) : ScrollState × List ScrollEmit :=
  let s0 := { s with scrollRafPending := false }
  if SCROLL_THRESHOLD < |s.scrollBufferX| ∨ SCROLL_THRESHOLD < |s.scrollBufferY| then
    ({ s0 with scrollBufferX := 0, scrollBufferY := 0 },
     [⟨s.lastScrollX, s.lastScrollY, s.scrollBufferX, s.scrollBufferY⟩])
  else (s0, [])

/-- Scroll-side events: a wheel tick, or an animation-frame boundary (the
scheduled `requestAnimationFrame` callback fires only if one is
pending). -/
inductive ScrollEvent where
  | wheel (e : WheelEvt)
  | frame
  deriving DecidableEq, Repr

/-- Dispatch one scroll-side event. -/
def stepScroll (rect : Rect) (s : ScrollState) : ScrollEvent → ScrollState × List ScrollEmit
  | ScrollEvent.wheel e => (onWheelEvent rect s e, [])
  | ScrollEvent.frame => if s.scrollRafPending then processScrollBuffer s else (s, [])

/-- Run a scroll-event sequence, concatenating emissions in order. -/
def runScroll (rect : Rect) (s : ScrollState) :
    List ScrollEvent → ScrollState × List ScrollEmit
  | [] => (s, [])
  | ev :: evs =>
      let (s1, out) := stepScroll rect s ev
      let (s2, outs) := runScroll rect s1 evs
      (s2, out ++ outs)

/-! ## Alternate control session (`WDAClient`)

HTTP traffic is modelled as a request log plus a network oracle mapping
each request to a response or a thrown fetch error; a non-ok response
makes `request` throw after the request was issued.  JS string
truthiness (`if (this.sessionId)`, `a || b`) is modelled by
`jsTruthyStr`.  `Math.sqrt(d) < 10` is written `d < 100` (both sides
nonnegative). -/

/-- The mutable state of a `WDAClient`. -/
structure WDAState where
  sessionId : Option String
  touchActive : Bool
  touchStartX : ℚ
  touchStartY : ℚ
  deriving DecidableEq, Repr

/-- One W3C pointer action of an action chain. -/
inductive PointerAction where
  | pointerMove (duration : Nat) (x y : Int)
  | pointerDown (button : Nat)
  | pause (duration : Nat)
  | pointerUp (button : Nat)
  deriving DecidableEq, Repr

/-- Request bodies the client sends. -/
inductive WDABody where
  | sessionCaps
  | actionsChain (chain : List PointerAction)
  | pressButtonBody (name : String)
  deriving DecidableEq, Repr

/-- One HTTP request issued by the client. -/
structure WDARequest where
  method : String
  path : String
  body : Option WDABody
  deriving DecidableEq, Repr

/-- The parts of a WDA HTTP response the client inspects: HTTP ok-ness
and, for session creation, `value.sessionId` and the top-level
`sessionId`. -/
structure WDAResponse where
  ok : Bool
  valueSessionId : Option String
  sessionId : Option String
  deriving DecidableEq, Repr

/-- The network: each request either yields a response or throws. -/
abbrev WDANet := WDARequest → Except JSError WDAResponse

/-- JS `Math.round`: round half toward positive infinity. -/
def jsRound (q : ℚ) : Int := ⌊q + 1 / 2⌋

/-- JS truthiness of an optional string (undefined and "" are falsy). -/
def jsTruthyStr : Option String → Bool
  | none => false
  | some s => s != ""

/-- `WDAClient.request`: log the request; a thrown fetch error
propagates, a non-ok response is turned into a thrown error. -/
def wdaRequest (net : WDANet) (method path : String) (body : Option WDABody) :
    List WDARequest × Except JSError WDAResponse :=
  let req : WDARequest := ⟨method, path, body⟩
  ([req],
   match net req with
   | Except.error e => Except.error e
   | Except.ok resp =>
       if resp.ok then Except.ok resp
       else Except.error ⟨"WDA request failed"⟩)

/-- `WDAClient.createSession`: POST `/session`, then read
`response.value?.sessionId || response.sessionId`; a falsy session id is
an error, otherwise it is stored. -/
def createSession (net : WDANet) (s : WDAState) :
    WDAState × List WDARequest × Except JSError String :=
  let (log, r) := wdaRequest net "POST" "/session" (some WDABody.sessionCaps)
  match r with
  | Except.error e => (s, log, Except.error e)
  | Except.ok resp =>
      let sid := if jsTruthyStr resp.valueSessionId then resp.valueSessionId
        else resp.sessionId
      if jsTruthyStr sid then
        ({ s with sessionId := sid }, log, Except.ok (sid.getD ""))
      else (s, log, Except.error ⟨"No session ID in WDA response"⟩)

/-- `WDAClient.ensureSession`: reuse a truthy stored session id, else
create one. -/
def ensureSession (net : WDANet) (s : WDAState) :
    WDAState × List WDARequest × Except JSError String :=
  if jsTruthyStr s.sessionId then (s, [], Except.ok (s.sessionId.getD ""))
  else createSession net s

/-- The tap action chain of `performTap`: move to the point, press,
pause 50 ms, release. -/
def tapActions (x y : ℚ) : List PointerAction :=
  [PointerAction.pointerMove 0 (jsRound x) (jsRound y),
   PointerAction.pointerDown 0, PointerAction.pause 50, PointerAction.pointerUp 0]

/-- The swipe action chain of `performSwipe`: move to the start, press,
timed move to the end, release. -/
def swipeActions (startX startY endX endY : ℚ) (durationMs : Nat) : List PointerAction :=
  [PointerAction.pointerMove 0 (jsRound startX) (jsRound startY),
   PointerAction.pointerDown 0,
   PointerAction.pointerMove durationMs (jsRound endX) (jsRound endY),
   PointerAction.pointerUp 0]

/-- `WDAClient.performTap`. -/
def performTap (net : WDANet) (sessionId : String) (x y : ℚ) :
    List WDARequest × Except JSError WDAResponse :=
  wdaRequest net "POST" ("/session/" ++ sessionId ++ "/actions")
    (some (WDABody.actionsChain (tapActions x y)))

/-- `WDAClient.performSwipe`. -/
def performSwipe (net : WDANet) (sessionId : String) (startX startY endX endY : ℚ)
    (durationMs : Nat) : List WDARequest × Except JSError WDAResponse :=
  wdaRequest net "POST" ("/session/" ++ sessionId ++ "/actions")
    (some (WDABody.actionsChain (swipeActions startX startY endX endY durationMs)))

/-- `WDAClient.touch`: ensure a session, then track `down`, ignore
`move`, and on `up` classify tap (distance² < 100, i.e. distance < 10)
versus swipe from the recorded start. -/
def wdaTouch (net : WDANet) (s : WDAState) (action : TouchAction) (x y : ℚ) :
    WDAState × List WDARequest × Except JSError Unit :=
  let (s1, log1, r1) := ensureSession net s
  match r1 with
  | Except.error e => (s1, log1, Except.error e)
  | Except.ok sessionId =>
      match action with
      | TouchAction.down =>
          ({ s1 with touchActive := true, touchStartX := x, touchStartY := y },
           log1, Except.ok ())
      | TouchAction.move => (s1, log1, Except.ok ())
      | TouchAction.up =>
          if s1.touchActive then
            let s2 := { s1 with touchActive := false }
            if (x - s1.touchStartX) * (x - s1.touchStartX) +
                (y - s1.touchStartY) * (y - s1.touchStartY) < 100 then
              let (log2, r2) := performTap net sessionId s1.touchStartX s1.touchStartY
              (s2, log1 ++ log2, r2.map fun _ => ())
            else
              let (log2, r2) := performSwipe net sessionId s1.touchStartX s1.touchStartY
                x y 200
              (s2, log1 ++ log2, r2.map fun _ => ())
          else (s1, log1, Except.ok ())

/-- `WDAClient.pressButton`. -/
def wdaPressButton (net : WDANet) (s : WDAState) (button : String) :
    WDAState × List WDARequest × Except JSError Unit :=
  let (s1, log1, r1) := ensureSession net s
  match r1 with
  | Except.error e => (s1, log1, Except.error e)
  | Except.ok sessionId =>
      let (log2, r2) := wdaRequest net "POST"
        ("/session/" ++ sessionId ++ "/wda/pressButton")
        (some (WDABody.pressButtonBody button))
      (s1, log1 ++ log2, r2.map fun _ => ())

/-- A pointer-action request: POST of a W3C action chain. -/
def isActionsRequest (r : WDARequest) : Bool :=
  match r.body with
  | some (WDABody.actionsChain _) => true
  | _ => false

/-- A network on which every request draws a non-ok (error) response,
e.g. `invalid session id`. -/
def errRespNet : WDANet := fun _ => Except.ok ⟨false, none, none⟩

/-- A network on which every request succeeds (with a body carrying no
session id). -/
def okRespNet : WDANet := fun _ => Except.ok ⟨true, none, none⟩

/-- A client holding a stored (possibly expired) session id `dead`. -/
def deadState : WDAState := ⟨some "dead", false, 0, 0⟩

/-- A client holding the stored session id `sid`, no touch active. -/
def wdaBaseState : WDAState := ⟨some "sid", false, 0, 0⟩

theorem drainBuffer_short {buf : List Nat} (h : buf.length < 5) :
    drainBuffer buf = ([], buf) := by
  rw [drainBuffer]
  simp [h]

theorem drainBuffer_incomplete {buf : List Nat} (h5 : ¬ buf.length < 5)
    (hlen : buf.length < 5 + declaredLen buf) :
    drainBuffer buf = ([], buf) := by
  rw [drainBuffer]
  simp [h5, hlen]

theorem drainBuffer_step {buf : List Nat} (h5 : ¬ buf.length < 5)
    (hlen : ¬ buf.length < 5 + declaredLen buf) :
    drainBuffer buf =
      (⟨buf.getD 0 0, (buf.drop 5).take (declaredLen buf)⟩ ::
        (drainBuffer (buf.drop (5 + declaredLen buf))).1,
       (drainBuffer (buf.drop (5 + declaredLen buf))).2) := by
  rw [drainBuffer]
  simp [h5, hlen]

theorem readU32BE_u32BE (n : Nat) (h : n < 2 ^ 32) :
    readU32BE (n / 2 ^ 24 % 256) (n / 2 ^ 16 % 256) (n / 2 ^ 8 % 256) (n % 256) = n := by
  unfold readU32BE
  omega

/-- The residual buffer left by the drain loop is itself fully drained:
re-running the loop on it pops nothing. -/
theorem drainBuffer_residual (buf : List Nat) :
    drainBuffer (drainBuffer buf).2 = ([], (drainBuffer buf).2) := by
  suffices H : ∀ n (buf : List Nat), buf.length ≤ n →
      drainBuffer (drainBuffer buf).2 = ([], (drainBuffer buf).2) from
    H buf.length buf le_rfl
  intro n
  induction n with
  | zero =>
    intro buf hb
    have h : buf.length < 5 := by omega
    rw [drainBuffer_short h]
    exact drainBuffer_short h
  | succ n ih =>
    intro buf hb
    by_cases h5 : buf.length < 5
    · rw [drainBuffer_short h5]
      exact drainBuffer_short h5
    · by_cases hlen : buf.length < 5 + declaredLen buf
      · rw [drainBuffer_incomplete h5 hlen]
        exact drainBuffer_incomplete h5 hlen
      · rw [drainBuffer_step h5 hlen]
        have : (buf.drop (5 + declaredLen buf)).length ≤ n := by
          simp only [List.length_drop]
          omega
        exact ih _ this

/-- Draining a buffer extended by more bytes first pops what the original
buffer already contained, then continues on the residue plus the new
bytes. -/
theorem drainBuffer_append (buf c : List Nat) :
    drainBuffer (buf ++ c) =
      ((drainBuffer buf).1 ++ (drainBuffer ((drainBuffer buf).2 ++ c)).1,
       (drainBuffer ((drainBuffer buf).2 ++ c)).2) := by
  suffices H : ∀ n (buf : List Nat), buf.length ≤ n → ∀ c : List Nat,
      drainBuffer (buf ++ c) =
        ((drainBuffer buf).1 ++ (drainBuffer ((drainBuffer buf).2 ++ c)).1,
         (drainBuffer ((drainBuffer buf).2 ++ c)).2) from
    H buf.length buf le_rfl c
  intro n
  induction n with
  | zero =>
    intro buf hb c
    have h : buf.length < 5 := by omega
    rw [drainBuffer_short h]
    simp
  | succ n ih =>
    intro buf hb c
    by_cases h5 : buf.length < 5
    · rw [drainBuffer_short h5]
      simp
    · by_cases hlen : buf.length < 5 + declaredLen buf
      · rw [drainBuffer_incomplete h5 hlen]
        simp
      · -- the head frame is complete in `buf`, hence also in `buf ++ c`,
        -- and it is bit-for-bit the same frame
        have hdecl : declaredLen (buf ++ c) = declaredLen buf := by
          unfold declaredLen
          rw [List.getD_append _ _ _ _ (by omega), List.getD_append _ _ _ _ (by omega),
            List.getD_append _ _ _ _ (by omega), List.getD_append _ _ _ _ (by omega)]
        have h5' : ¬ (buf ++ c).length < 5 := by
          simp only [List.length_append]
          omega
        have hlen' : ¬ (buf ++ c).length < 5 + declaredLen (buf ++ c) := by
          simp only [List.length_append, hdecl]
          omega
        rw [drainBuffer_step h5' hlen', drainBuffer_step h5 hlen, hdecl]
        have hty : (buf ++ c).getD 0 0 = buf.getD 0 0 :=
          List.getD_append _ _ _ _ (by omega)
        have hdrop5 : (buf ++ c).drop 5 = buf.drop 5 ++ c := by
          rw [List.drop_append_eq_append_drop]
          have h0 : 5 - buf.length = 0 := by omega
          rw [h0, List.drop_zero]
        have hpay : ((buf ++ c).drop 5).take (declaredLen buf) =
            (buf.drop 5).take (declaredLen buf) := by
          rw [hdrop5, List.take_append_eq_append_take]
          have h0 : declaredLen buf - (buf.drop 5).length = 0 := by
            simp only [List.length_drop]
            omega
          rw [h0, List.take_zero, List.append_nil]
        have hrest : (buf ++ c).drop (5 + declaredLen buf) =
            buf.drop (5 + declaredLen buf) ++ c := by
          rw [List.drop_append_eq_append_drop]
          have h0 : 5 + declaredLen buf - buf.length = 0 := by omega
          rw [h0, List.drop_zero]
        have hlt : (buf.drop (5 + declaredLen buf)).length ≤ n := by
          simp only [List.length_drop]
          omega
        rw [hty, hpay, hrest, ih _ hlt c]
        simp

/-- Draining the exact concatenation of valid frames recovers the framed
messages, in order, with an empty residue. -/
theorem drainBuffer_encodeMessages (ms : List HelperMessage)
    (h : ∀ m ∈ ms, m.payload.length < 2 ^ 32) :
    drainBuffer (encodeMessages ms) = (ms, []) := by
  induction ms with
  | nil =>
    exact drainBuffer_short (by simp [encodeMessages])
  | cons m ms ih =>
    have hm : m.payload.length < 2 ^ 32 := h m (List.mem_cons_self m ms)
    have hms : ∀ m' ∈ ms, m'.payload.length < 2 ^ 32 := fun m' hm' =>
      h m' (List.mem_cons_of_mem _ hm')
    have hflat : encodeMessages (m :: ms) =
        m.type :: (m.payload.length / 2 ^ 24 % 256 :: m.payload.length / 2 ^ 16 % 256 ::
          m.payload.length / 2 ^ 8 % 256 :: m.payload.length % 256 ::
          (m.payload ++ encodeMessages ms)) := by
      simp [encodeMessages, encodeMessage, u32BE]
    have hdecl : declaredLen (encodeMessages (m :: ms)) = m.payload.length := by
      rw [hflat]
      unfold declaredLen
      simp only [List.getD_cons_succ, List.getD_cons_zero]
      exact readU32BE_u32BE _ hm
    have hlength : (encodeMessages (m :: ms)).length =
        5 + m.payload.length + (encodeMessages ms).length := by
      rw [hflat]
      simp only [List.length_cons, List.length_append]
      omega
    have h5 : ¬ (encodeMessages (m :: ms)).length < 5 := by omega
    have hlen : ¬ (encodeMessages (m :: ms)).length <
        5 + declaredLen (encodeMessages (m :: ms)) := by
      rw [hdecl]
      omega
    rw [drainBuffer_step h5 hlen, hdecl]
    have hdrop5 : (encodeMessages (m :: ms)).drop 5 = m.payload ++ encodeMessages ms := by
      rw [hflat]
      rfl
    have hpay : ((encodeMessages (m :: ms)).drop 5).take m.payload.length = m.payload := by
      rw [hdrop5, List.take_append_eq_append_take]
      simp
    have hrest : (encodeMessages (m :: ms)).drop (5 + m.payload.length) =
        encodeMessages ms := by
      have hsplit : encodeMessages (m :: ms) = encodeMessage m ++ encodeMessages ms := by
        simp [encodeMessages]
      have hlen5 : (encodeMessage m).length = 5 + m.payload.length := by
        simp [encodeMessage, u32BE]
        omega
      rw [hsplit, ← hlen5, List.drop_left]
    have hty : (encodeMessages (m :: ms)).getD 0 0 = m.type := by
      rw [hflat]
      rfl
    rw [hpay, hrest, ih hms, hty]

/-- Feeding chunks one at a time is the same as draining everything at
once, provided the starting buffer is already fully drained. -/
theorem feedChunks_eq (chunks : List (List Nat)) :
    ∀ (ms0 : List HelperMessage) (buf0 : List Nat),
      drainBuffer buf0 = ([], buf0) →
      feedChunks (ms0, buf0) chunks =
        (ms0 ++ (drainBuffer (buf0 ++ chunks.flatten)).1,
         (drainBuffer (buf0 ++ chunks.flatten)).2) := by
  induction chunks with
  | nil =>
    intro ms0 buf0 h0
    simp [feedChunks, h0]
  | cons c cs ih =>
    intro ms0 buf0 h0
    show feedChunks (ms0 ++ (drainBuffer (buf0 ++ c)).1, (drainBuffer (buf0 ++ c)).2) cs = _
    rw [ih _ _ (drainBuffer_residual (buf0 ++ c))]
    have happ := drainBuffer_append (buf0 ++ c) cs.flatten
    simp only [List.flatten_cons, ← List.append_assoc]
    rw [happ]
    simp [List.append_assoc]

/-- C1: framing of the inbound length-prefixed helper stream is
chunk-invariant.  (1) For every sequence of valid framed messages and
every way of splitting their concatenation into successive chunks fed to
`handleHelperData`, exactly those messages are delivered, each with its
full payload, in stream order, and the buffer ends empty.  (2) A frame
whose declared length exceeds the bytes buffered so far is left
unconsumed, awaiting more bytes. -/
theorem C1_framing_chunk_invariant :
    (∀ (ms : List HelperMessage) (chunks : List (List Nat)),
        (∀ m ∈ ms, m.payload.length < 2 ^ 32) →
        chunks.flatten = encodeMessages ms →
        feedChunks ([], []) chunks = (ms, [])) ∧
    (∀ buf : List Nat, 5 ≤ buf.length → buf.length < 5 + declaredLen buf →
        drainBuffer buf = ([], buf)) := by
  constructor
  · intro ms chunks hvalid hsplit
    have h0 : drainBuffer ([] : List Nat) = ([], []) := drainBuffer_short (by simp)
    rw [feedChunks_eq chunks [] [] h0]
    simp only [List.nil_append, hsplit, drainBuffer_encodeMessages ms hvalid]
  · intro buf h5 hlen
    exact drainBuffer_incomplete (by omega) hlen

/-- C1 witness: two concrete frames (type 4 with payload `[9,9,9]`, type 6
with empty payload) split across four uneven chunks are delivered intact
and in order; a concrete short frame declaring 5 payload bytes it does
not have is left buffered. -/
theorem C1_witness :
    feedChunks ([], []) [[4, 0], [0, 0, 3, 9], [9, 9, 6, 0], [0, 0, 0]] =
      ([⟨4, [9, 9, 9]⟩, ⟨6, []⟩], []) ∧
    drainBuffer [1, 0, 0, 0, 5] = ([], [1, 0, 0, 0, 5]) :=
  ⟨C1_framing_chunk_invariant.1 [⟨4, [9, 9, 9]⟩, ⟨6, []⟩]
      [[4, 0], [0, 0, 3, 9], [9, 9, 6, 0], [0, 0, 0]] (by decide) (by decide),
   C1_framing_chunk_invariant.2 [1, 0, 0, 0, 5] (by decide) (by decide)⟩

/-! ## Codec bitstream analyzer lemmas -/

theorem startCode3_byte2 {d : List Nat} {i : Nat} (h : isStartCode3 d i = true) :
    d.getD (i + 2) 256 = 1 := by
  simp only [isStartCode3, Bool.and_eq_true, beq_iff_eq] at h
  exact h.2

theorem startCode4_byte2 {d : List Nat} {i : Nat} (h : isStartCode4 d i = true) :
    d.getD (i + 2) 256 = 0 := by
  simp only [isStartCode4, Bool.and_eq_true, beq_iff_eq] at h
  exact h.1.2

theorem startCode4_false_of_byte2 {d : List Nat} {i : Nat}
    (h2 : d.getD (i + 2) 256 = 1) : isStartCode4 d i = false := by
  rw [Bool.eq_false_iff]
  intro habs
  have := startCode4_byte2 habs
  omega

theorem startCode3_false_of_byte2 {d : List Nat} {i : Nat}
    (h2 : d.getD (i + 2) 256 ≠ 1) : isStartCode3 d i = false := by
  rw [Bool.eq_false_iff]
  intro habs
  exact h2 (startCode3_byte2 habs)

theorem startCode3_not4 {d : List Nat} {i : Nat} (h : isStartCode3 d i = true) :
    isStartCode4 d i = false :=
  startCode4_false_of_byte2 (startCode3_byte2 h)

theorem startCode3_lt_length {d : List Nat} {i : Nat} (h : isStartCode3 d i = true) :
    i < d.length := by
  by_contra hge
  have : d.getD i 256 = 256 := List.getD_eq_default d 256 (by omega)
  simp only [isStartCode3, Bool.and_eq_true, beq_iff_eq] at h
  omega

theorem startCode4_lt_length {d : List Nat} {i : Nat} (h : isStartCode4 d i = true) :
    i < d.length := by
  by_contra hge
  have : d.getD i 256 = 256 := List.getD_eq_default d 256 (by omega)
  simp only [isStartCode4, Bool.and_eq_true, beq_iff_eq] at h
  omega

/-- The per-index test of the keyframe scans, related to `h264UnitAt`. -/
theorem h264_hit_iff (d : List Nat) (i t : Nat) :
    (((isStartCode3 d i || isStartCode4 d i) &&
        d.getD (i + (if d.getD (i + 2) 256 == 1 then 3 else 4)) 256 % 32 == t) = true) ↔
      h264UnitAt d i t := by
  by_cases h2 : d.getD (i + 2) 256 = 1
  · have h4 : isStartCode4 d i = false := startCode4_false_of_byte2 h2
    have hcond : (d.getD (i + 2) 256 == 1) = true := beq_iff_eq.mpr h2
    rw [hcond]
    simp [h264UnitAt, h4]
  · have h3 : isStartCode3 d i = false := startCode3_false_of_byte2 h2
    have hcond : (d.getD (i + 2) 256 == 1) = false := by
      simp only [beq_eq_false_iff_ne, ne_eq]
      exact h2
    rw [hcond]
    simp [h264UnitAt, h3]

/-- The per-index test of the H.265 keyframe scan. -/
theorem h265_hit_iff (d : List Nat) (i t₁ t₂ : Nat) :
    (((isStartCode3 d i || isStartCode4 d i) &&
        (let t := d.getD (i + (if d.getD (i + 2) 256 == 1 then 3 else 4)) 256 / 2 % 64
         t == t₁ || t == t₂)) = true) ↔
      (h265UnitAt d i t₁ ∨ h265UnitAt d i t₂) := by
  by_cases h2 : d.getD (i + 2) 256 = 1
  · have h4 : isStartCode4 d i = false := startCode4_false_of_byte2 h2
    have hcond : (d.getD (i + 2) 256 == 1) = true := beq_iff_eq.mpr h2
    rw [hcond]
    simp only [h265UnitAt, h4, Bool.false_and, and_false, false_and, or_false, if_true]
    simp [and_or_left]
  · have h3 : isStartCode3 d i = false := startCode3_false_of_byte2 h2
    have hcond : (d.getD (i + 2) 256 == 1) = false := by
      simp only [beq_eq_false_iff_ne, ne_eq]
      exact h2
    rw [hcond]
    simp only [h265UnitAt, h3, Bool.false_and, and_false, false_and, false_or, if_false]
    simp [and_or_left]

theorem containsH264IDR_iff (d : List Nat) :
    containsH264IDR d = true ↔ ∃ i, i + 4 < d.length ∧ h264UnitAt d i 5 := by
  unfold containsH264IDR
  rw [List.any_eq_true]
  constructor
  · rintro ⟨i, hmem, hp⟩
    rw [List.mem_range] at hmem
    exact ⟨i, by omega, (h264_hit_iff d i 5).1 hp⟩
  · rintro ⟨i, hlt, hp⟩
    exact ⟨i, List.mem_range.2 (by omega), (h264_hit_iff d i 5).2 hp⟩

theorem containsH265IDR_iff (d : List Nat) :
    containsH265IDR d = true ↔
      ∃ i, i + 4 < d.length ∧ (h265UnitAt d i 19 ∨ h265UnitAt d i 20) := by
  unfold containsH265IDR
  rw [List.any_eq_true]
  constructor
  · rintro ⟨i, hmem, hp⟩
    rw [List.mem_range] at hmem
    exact ⟨i, by omega, (h265_hit_iff d i 19 20).1 hp⟩
  · rintro ⟨i, hlt, hp⟩
    exact ⟨i, List.mem_range.2 (by omega), (h265_hit_iff d i 19 20).2 hp⟩

/-- The per-index step of `findH264SPS` returns nothing exactly when the
index carries no SPS unit. -/
theorem findH264SPS_entry_none_iff (d : List Nat) (i : Nat) :
    ((let off : Nat := if isStartCode3 d i then 3 else if isStartCode4 d i then 4 else 0
      if off > 0 then
        if d.getD (i + off) 256 % 32 == 7 then some (d.drop (i + off)) else none
      else none) = none) ↔ ¬ h264UnitAt d i 7 := by
  by_cases h3 : isStartCode3 d i = true
  · have h4 : isStartCode4 d i = false := startCode3_not4 h3
    rw [h3]
    simp [h264UnitAt, h3, h4]
  · rw [Bool.not_eq_true] at h3
    by_cases h4 : isStartCode4 d i = true
    · rw [h3, h4]
      simp [h264UnitAt, h3, h4]
    · rw [Bool.not_eq_true] at h4
      rw [h3, h4]
      simp [h264UnitAt, h3, h4]

theorem findH264SPS_eq_none_iff (d : List Nat) :
    findH264SPS d = none ↔ ∀ i, i + 4 < d.length → ¬ h264UnitAt d i 7 := by
  unfold findH264SPS
  rw [List.findSome?_eq_none_iff]
  constructor
  · intro h i hlt
    exact (findH264SPS_entry_none_iff d i).1 (h i (List.mem_range.2 (by omega)))
  · intro h i hmem
    rw [List.mem_range] at hmem
    exact (findH264SPS_entry_none_iff d i).2 (h i (by omega))

theorem findH265ConfigNAL_iff (d : List Nat) :
    findH265ConfigNAL d = true ↔
      ∃ i, i + 4 < d.length ∧
        (h265UnitAt d i 32 ∨ h265UnitAt d i 33 ∨ h265UnitAt d i 34) := by
  unfold findH265ConfigNAL
  rw [List.any_eq_true]
  have hentry : ∀ i,
      ((let off : Nat := if isStartCode3 d i then 3 else if isStartCode4 d i then 4 else 0
        if off > 0 then
          let t := d.getD (i + off) 256 / 2 % 64
          t == 32 || t == 33 || t == 34
        else false) = true) ↔
      (h265UnitAt d i 32 ∨ h265UnitAt d i 33 ∨ h265UnitAt d i 34) := by
    intro i
    by_cases h3 : isStartCode3 d i = true
    · have h4 : isStartCode4 d i = false := startCode3_not4 h3
      rw [h3]
      simp only [h265UnitAt, h4, Bool.false_and, and_false, false_and, or_false]
      simp [h3]
      tauto
    · rw [Bool.not_eq_true] at h3
      by_cases h4 : isStartCode4 d i = true
      · rw [h3, h4]
        simp only [h265UnitAt, h3, Bool.false_and, and_false, false_and, false_or]
        simp [h4]
        tauto
      · rw [Bool.not_eq_true] at h4
        rw [h3, h4]
        simp [h265UnitAt, h3, h4]
  constructor
  · rintro ⟨i, hmem, hp⟩
    rw [List.mem_range] at hmem
    exact ⟨i, by omega, (hentry i).1 hp⟩
  · rintro ⟨i, hlt, hp⟩
    exact ⟨i, List.mem_range.2 (by omega), (hentry i).2 hp⟩

/-- The source arithmetic and the claim's dimension formula agree on
every parsed SPS. -/
theorem computeH264Dims_eq_spec (sps : SPS) : computeH264Dims sps = specH264Dims sps := by
  rcases sps with ⟨fm, w, hgt, flag, ⟨l, r, t, b⟩, chroma⟩
  simp only [computeH264Dims, specH264Dims, specCropUnits]
  cases flag with
  | false => simp
  | true =>
    by_cases h2 : chroma = 2
    · simp [h2]
    · by_cases h3 : chroma = 3
      · simp [h2, h3]
      · by_cases h1 : chroma = 1 <;> simp [h1, h2, h3] <;> ring

/-- C2: `parseH264SPSDimensions` is total — it never lets an exception
escape, whatever the `h264-sps-parser` library does — and it returns
`none` on every buffer in which no SPS is found, as well as on every
buffer whose found SPS makes the library throw. -/
theorem C2_parse_sps_dimensions_total :
    (∀ (lib : List Nat → Except JSError SPS) (config : List Nat),
        (parseH264SPSDimensions lib config).isOk = true) ∧
    (∀ (lib : List Nat → Except JSError SPS) (config : List Nat),
        findH264SPS config = none →
        parseH264SPSDimensions lib config = Except.ok none) ∧
    (∀ (lib : List Nat → Except JSError SPS) (config s : List Nat) (e : JSError),
        findH264SPS config = some s → lib s = Except.error e →
        parseH264SPSDimensions lib config = Except.ok none) := by
  refine ⟨fun lib config => ?_, fun lib config h => ?_, fun lib config s e hf hl => ?_⟩
  · cases hs : findH264SPS config with
    | none =>
      simp only [parseH264SPSDimensions, hs]
      rfl
    | some s =>
      cases hl : lib s with
      | error e =>
        simp only [parseH264SPSDimensions, hs, hl]
        rfl
      | ok sps =>
        simp only [parseH264SPSDimensions, hs, hl]
        rfl
  · simp [parseH264SPSDimensions, h]
  · simp [parseH264SPSDimensions, hf, hl]

/-- C2 witness: the empty buffer yields `ok none`; a buffer with an SPS
whose parse throws also yields `ok none`, with no escaping exception. -/
theorem C2_witness :
    (parseH264SPSDimensions errLib [0, 0, 1, 0x67, 0]).isOk = true ∧
    parseH264SPSDimensions errLib [] = Except.ok none ∧
    parseH264SPSDimensions errLib [0, 0, 1, 0x67, 0] = Except.ok none :=
  ⟨C2_parse_sps_dimensions_total.1 errLib [0, 0, 1, 0x67, 0],
   C2_parse_sps_dimensions_total.2.1 errLib [] (by decide),
   C2_parse_sps_dimensions_total.2.2 errLib [0, 0, 1, 0x67, 0] [0x67, 0]
     ⟨"Failed to parse H.264 SPS"⟩ (by decide) rfl⟩

/-- C3 counterexample: `[0, 0, 1, 0x67]` contains the start code
`00 00 01` followed by a byte whose low 5 bits are 7, yet `detectCodec`
returns `none` — the scan loop stops at `length - 4`, so a 3-byte start
code whose NAL header is the final byte is never examined. -/
theorem C3_counterexample :
    h264UnitAt [0, 0, 1, 0x67] 0 7 ∧ detectCodec [0, 0, 1, 0x67] = none := by
  constructor
  · left
    decide
  · decide

/-- C3 (amended): `detectCodec` returns `h264` for every buffer with an
H.264 SPS unit after a start code at an index `i` with `i + 4 < length`;
returns `h265` for every buffer without any H.264 SPS unit but with an
H.265 type-32/33/34 unit after a start code at such an index; and
returns `none` for every buffer containing no start code at all. -/
theorem C3_detect_codec_amended :
    (∀ d : List Nat, (∃ i, i + 4 < d.length ∧ h264UnitAt d i 7) →
        detectCodec d = some VideoCodec.h264) ∧
    (∀ d : List Nat, (∀ i < d.length, ¬ h264UnitAt d i 7) →
        (∃ i, i + 4 < d.length ∧
          (h265UnitAt d i 32 ∨ h265UnitAt d i 33 ∨ h265UnitAt d i 34)) →
        detectCodec d = some VideoCodec.h265) ∧
    (∀ d : List Nat, (∀ i < d.length, isStartCode3 d i = false ∧ isStartCode4 d i = false) →
        detectCodec d = none) := by
  refine ⟨fun d hex => ?_, fun d hno hex => ?_, fun d hno => ?_⟩
  · have hsome : (findH264SPS d).isSome = true := by
      cases hs : findH264SPS d with
      | none =>
        rcases hex with ⟨i, hlt, hunit⟩
        exact absurd hunit ((findH264SPS_eq_none_iff d).1 hs i hlt)
      | some s => rfl
    unfold detectCodec
    rw [hsome]
    rfl
  · have hnone : findH264SPS d = none := by
      rw [findH264SPS_eq_none_iff]
      intro i hlt
      exact hno i (by omega)
    have h265 : findH265ConfigNAL d = true := (findH265ConfigNAL_iff d).2 hex
    unfold detectCodec
    rw [hnone, h265]
    rfl
  · have hnone : findH264SPS d = none := by
      rw [findH264SPS_eq_none_iff]
      intro i _ hunit
      rcases hunit with ⟨h3, _⟩ | ⟨h4, _⟩
      · exact absurd h3 (by simp [(hno i (startCode3_lt_length h3)).1])
      · exact absurd h4 (by simp [(hno i (startCode4_lt_length h4)).2])
    have h265 : findH265ConfigNAL d = false := by
      rw [Bool.eq_false_iff]
      intro habs
      rcases (findH265ConfigNAL_iff d).1 habs with ⟨i, _, hunit⟩
      rcases hunit with (⟨h3, _⟩ | ⟨h4, _⟩) | (⟨h3, _⟩ | ⟨h4, _⟩) | (⟨h3, _⟩ | ⟨h4, _⟩)
      all_goals first
        | exact absurd h3 (by simp [(hno i (startCode3_lt_length h3)).1])
        | exact absurd h4 (by simp [(hno i (startCode4_lt_length h4)).2])
    unfold detectCodec
    rw [hnone, h265]
    rfl

/-- C3 witness: an SPS one byte clear of the tail is detected as H.264; a
VPS (type 32) buffer with no SPS is detected as H.265; a buffer with no
start code yields `none`. -/
theorem C3_witness :
    detectCodec [0, 0, 1, 0x67, 0] = some VideoCodec.h264 ∧
    detectCodec [0, 0, 1, 0x40, 0] = some VideoCodec.h265 ∧
    detectCodec [1, 2, 3, 4, 5] = none :=
  ⟨C3_detect_codec_amended.1 [0, 0, 1, 0x67, 0] ⟨0, by decide, Or.inl (by decide)⟩,
   C3_detect_codec_amended.2.1 [0, 0, 1, 0x40, 0] (by decide)
     ⟨0, by decide, Or.inl (Or.inl (by decide))⟩,
   C3_detect_codec_amended.2.2 [1, 2, 3, 4, 5] (by decide)⟩

/-- C4 counterexample: `[0, 0, 1, 0x65]` has a start code followed by a
type-5 (IDR) unit at its tail, yet `containsKeyFrame` misses it because
the scan loop stops at `length - 4`. -/
theorem C4_counterexample :
    h264UnitAt [0, 0, 1, 0x65] 0 5 ∧
      containsKeyFrame [0, 0, 1, 0x65] VideoCodec.h264 = false := by
  constructor
  · left
    decide
  · decide

/-- C4 (amended): `containsKeyFrame` with `h264` is true iff some start
code at an index `i` with `i + 4 < length` is followed by a type-5 unit;
with `h265` iff such a start code is followed by a type-19 or type-20
unit; with `av1` it is false on every buffer. -/
theorem C4_contains_keyframe_amended :
    (∀ d : List Nat, containsKeyFrame d VideoCodec.h264 = true ↔
        ∃ i, i + 4 < d.length ∧ h264UnitAt d i 5) ∧
    (∀ d : List Nat, containsKeyFrame d VideoCodec.h265 = true ↔
        ∃ i, i + 4 < d.length ∧ (h265UnitAt d i 19 ∨ h265UnitAt d i 20)) ∧
    (∀ d : List Nat, containsKeyFrame d VideoCodec.av1 = false) :=
  ⟨fun d => containsH264IDR_iff d, fun d => containsH265IDR_iff d, fun _ => rfl⟩

/-- C9: for every configuration unit in which an SPS is found and parses
successfully, the extracted dimensions satisfy the claim's formula
(macroblock sizes minus chroma-scaled cropping). -/
theorem C9_sps_dimension_formula :
    ∀ (lib : List Nat → Except JSError SPS) (config s : List Nat) (sps : SPS),
      findH264SPS config = some s → lib s = Except.ok sps →
      parseH264SPSDimensions lib config = Except.ok (some (specH264Dims sps)) := by
  intro lib config s sps hf hl
  simp [parseH264SPSDimensions, hf, hl, computeH264Dims_eq_spec]

/-- C9 witness: a concrete config whose SPS parses to `sampleSPS`
(1920 macro-pixels wide, cropping 4 bottom units at chroma 4:2:0)
produces exactly the claim's formula value. -/
theorem C9_witness :
    parseH264SPSDimensions okLib [0, 0, 0, 1, 0x67, 0] =
      Except.ok (some (specH264Dims sampleSPS)) :=
  C9_sps_dimension_formula okLib [0, 0, 0, 1, 0x67, 0] [0x67, 0] sampleSPS (by decide) rfl

/-! ## Gesture translator lemmas -/

theorem mapSet_nil (k : Nat) (v : ℚ × ℚ) : mapSet [] k v = [(k, v)] := by
  simp [mapSet]

theorem mapSet_single_ne (k1 : Nat) (x : ℚ × ℚ) (k2 : Nat) (v : ℚ × ℚ)
    (hne : k1 ≠ k2) : mapSet [(k1, x)] k2 v = [(k1, x), (k2, v)] := by
  simp [mapSet, hne]

theorem mapSet_pair_fst (id1 id2 : Nat) (x y v : ℚ × ℚ) (hne : id1 ≠ id2) :
    mapSet [(id1, x), (id2, y)] id1 v = [(id1, v), (id2, y)] := by
  simp [mapSet, Ne.symm hne]

theorem mapSet_pair_snd (id1 id2 : Nat) (x y v : ℚ × ℚ) (hne : id1 ≠ id2) :
    mapSet [(id1, x), (id2, y)] id2 v = [(id1, x), (id2, v)] := by
  simp [mapSet, hne]

theorem foldl_mapDelete_nil (ts : List TouchPoint) :
    ts.foldl (fun m t => mapDelete m t.identifier) [] = [] := by
  induction ts with
  | nil => rfl
  | cons t ts ih => simpa [mapDelete] using ih

theorem map_emitPointerIds (l : List MultiTouchEmit) :
    l.map emitPointerIds = List.replicate l.length [0, 1] := by
  induction l with
  | nil => rfl
  | cons m l ih => simp [emitPointerIds, ih, List.replicate_succ]

/-- The move/end phase of a two-finger gesture: from a pinching state
tracking exactly contacts `id1` and `id2`, each two-contact move frame
emits one `move` pair and the final touch end emits one `up` pair. -/
theorem runTouch_move_phase (rect : Rect) (id1 id2 : Nat) (hne : id1 ≠ id2)
    (eEnd : TouchEvt) :
    ∀ (moves : List (TouchPoint × TouchPoint)) (x y : ℚ × ℚ) (dsq : ℚ),
      (∀ p ∈ moves, p.1.identifier = id1 ∧ p.2.identifier = id2) →
      ((runTouch rect ⟨true, [(id1, x), (id2, y)], dsq⟩
          (moves.map (fun p => TouchEventKind.move ⟨[p.1, p.2], []⟩) ++
            [TouchEventKind.finish eEnd])).2.map (fun m => m.action) =
        List.replicate moves.length TouchAction.move ++ [TouchAction.up]) := by
  intro moves
  induction moves with
  | nil =>
    intro x y dsq _
    simp only [List.map_nil, List.nil_append, List.length_nil, List.replicate_zero]
    simp [runTouch, stepTouch, onTouchEnd, mapValues, foldl_mapDelete_nil]
  | cons p ps ih =>
    intro x y dsq hids
    have hp := hids p (List.mem_cons_self p ps)
    have hps : ∀ q ∈ ps, q.1.identifier = id1 ∧ q.2.identifier = id2 := fun q hq =>
      hids q (List.mem_cons_of_mem _ hq)
    simp only [List.map_cons, List.cons_append]
    rw [runTouch]
    have hstep : stepTouch rect ⟨true, [(id1, x), (id2, y)], dsq⟩
        (TouchEventKind.move ⟨[p.1, p.2], []⟩) =
        (⟨true, [(id1, getNormalizedCoordsFromTouch rect p.1),
                 (id2, getNormalizedCoordsFromTouch rect p.2)], dsq⟩,
         [⟨(getNormalizedCoordsFromTouch rect p.1).1,
           (getNormalizedCoordsFromTouch rect p.1).2,
           (getNormalizedCoordsFromTouch rect p.2).1,
           (getNormalizedCoordsFromTouch rect p.2).2, TouchAction.move⟩]) := by
      simp only [stepTouch, onTouchMove]
      rw [hp.1, hp.2, mapSet_pair_fst id1 id2 x y _ hne, mapSet_pair_snd id1 id2 _ y _ hne]
    rw [hstep]
    simp only []
    rw [List.length_cons, List.replicate_succ, List.cons_append]
    have := ih (getNormalizedCoordsFromTouch rect p.1) (getNormalizedCoordsFromTouch rect p.2)
      dsq hps
    simp only [List.map_append] at this ⊢
    simp [this]

/-- C5: (1) a well-formed two-finger gesture — two distinct contacts
appearing together, persisting through N move frames, then ending —
emits exactly one `down`, then N `move`s, then exactly one `up`, in that
order, each pair carrying pointer ids 0 and 1; (2) a third contact
arriving mid-pinch immediately emits the synthetic `up` pair for the two
tracked contacts and clears the gesture state; (3) any later two-contact
start emits a fresh `down` pair. -/
theorem C5_two_finger_gesture :
    (∀ (rect : Rect) (t1 t2 : TouchPoint) (moves : List (TouchPoint × TouchPoint))
        (eEnd : TouchEvt),
      t1.identifier ≠ t2.identifier →
      (∀ p ∈ moves, p.1.identifier = t1.identifier ∧ p.2.identifier = t2.identifier) →
      ((runTouch rect freshTouchState
          (TouchEventKind.start ⟨[t1, t2], []⟩ ::
            (moves.map (fun p => TouchEventKind.move ⟨[p.1, p.2], []⟩) ++
              [TouchEventKind.finish eEnd]))).2.map (fun m => m.action) =
          TouchAction.down ::
            (List.replicate moves.length TouchAction.move ++ [TouchAction.up]) ∧
       (runTouch rect freshTouchState
          (TouchEventKind.start ⟨[t1, t2], []⟩ ::
            (moves.map (fun p => TouchEventKind.move ⟨[p.1, p.2], []⟩) ++
              [TouchEventKind.finish eEnd]))).2.map emitPointerIds =
          List.replicate (moves.length + 2) [0, 1])) ∧
    (∀ (rect : Rect) (s : InputTouchState) (e3 : TouchEvt) (a b : ℚ × ℚ),
      s.isPinching = true → mapValues s.activeTouches = [a, b] →
      3 ≤ e3.touches.length →
      onTouchStart rect s e3 =
        ({ s with isPinching := false, activeTouches := [] },
         [⟨a.1, a.2, b.1, b.2, TouchAction.up⟩])) ∧
    (∀ (rect : Rect) (s : InputTouchState) (u1 u2 : TouchPoint) (ch : List TouchPoint),
      (onTouchStart rect s ⟨[u1, u2], ch⟩).2.map (fun m => m.action) = [TouchAction.down]) := by
  refine ⟨fun rect t1 t2 moves eEnd hne hids => ?_, fun rect s e3 a b hpin hmap hlen => ?_,
    fun rect s u1 u2 ch => ?_⟩
  · have hstart : stepTouch rect freshTouchState (TouchEventKind.start ⟨[t1, t2], []⟩) =
        (⟨true, [(t1.identifier, getNormalizedCoordsFromTouch rect t1),
                 (t2.identifier, getNormalizedCoordsFromTouch rect t2)],
          distanceSq (getNormalizedCoordsFromTouch rect t1)
            (getNormalizedCoordsFromTouch rect t2)⟩,
         [⟨(getNormalizedCoordsFromTouch rect t1).1,
           (getNormalizedCoordsFromTouch rect t1).2,
           (getNormalizedCoordsFromTouch rect t2).1,
           (getNormalizedCoordsFromTouch rect t2).2, TouchAction.down⟩]) := by
      simp only [stepTouch, onTouchStart, freshTouchState]
      rw [mapSet_nil, mapSet_single_ne _ _ _ _ hne]
    have hrest := runTouch_move_phase rect t1.identifier t2.identifier hne eEnd moves
      (getNormalizedCoordsFromTouch rect t1) (getNormalizedCoordsFromTouch rect t2)
      (distanceSq (getNormalizedCoordsFromTouch rect t1)
        (getNormalizedCoordsFromTouch rect t2)) hids
    constructor
    · rw [runTouch, hstart]
      simp only [List.map_append] at hrest ⊢
      simp [hrest]
    · rw [map_emitPointerIds]
      congr 1
      rw [runTouch, hstart]
      simp only []
      have hlen2 : ((runTouch rect ⟨true,
          [(t1.identifier, getNormalizedCoordsFromTouch rect t1),
           (t2.identifier, getNormalizedCoordsFromTouch rect t2)],
          distanceSq (getNormalizedCoordsFromTouch rect t1)
            (getNormalizedCoordsFromTouch rect t2)⟩
          (moves.map (fun p => TouchEventKind.move ⟨[p.1, p.2], []⟩) ++
            [TouchEventKind.finish eEnd])).2).length = moves.length + 1 := by
        have := congrArg List.length hrest
        simpa using this
      simp [hlen2]
  · rcases e3 with ⟨ts, ch⟩
    match ts, hlen with
    | t1 :: t2 :: t3 :: rest, _ =>
      simp only [onTouchStart, hpin, if_true]
      rw [hmap]
  · simp [onTouchStart]

/-- C5 witness: a concrete two-contact gesture with one move frame emits
`down, move, up` with pointer ids 0 and 1 each time; a concrete
three-contact start mid-pinch emits the synthetic `up` pair and clears
state; a concrete two-contact start emits a fresh `down`. -/
theorem C5_witness :
    ((runTouch ⟨0, 0, 100, 100⟩ freshTouchState
        (TouchEventKind.start ⟨[⟨1, 10, 10⟩, ⟨2, 20, 20⟩], []⟩ ::
          ([(⟨1, 12, 12⟩, ⟨2, 22, 22⟩)].map
              (fun p => TouchEventKind.move ⟨[p.1, p.2], []⟩) ++
            [TouchEventKind.finish ⟨[], [⟨1, 12, 12⟩, ⟨2, 22, 22⟩]⟩]))).2.map
        (fun m => m.action) =
        TouchAction.down ::
          (List.replicate 1 TouchAction.move ++ [TouchAction.up]) ∧
     (runTouch ⟨0, 0, 100, 100⟩ freshTouchState
        (TouchEventKind.start ⟨[⟨1, 10, 10⟩, ⟨2, 20, 20⟩], []⟩ ::
          ([(⟨1, 12, 12⟩, ⟨2, 22, 22⟩)].map
              (fun p => TouchEventKind.move ⟨[p.1, p.2], []⟩) ++
            [TouchEventKind.finish ⟨[], [⟨1, 12, 12⟩, ⟨2, 22, 22⟩]⟩]))).2.map
        emitPointerIds = List.replicate 3 [0, 1]) ∧
    onTouchStart ⟨0, 0, 100, 100⟩ ⟨true, [(1, (1/10, 1/10)), (2, (1/5, 1/5))], 0⟩
        ⟨[⟨1, 10, 10⟩, ⟨2, 20, 20⟩, ⟨3, 30, 30⟩], []⟩ =
      (⟨false, [], 0⟩, [⟨1/10, 1/10, 1/5, 1/5, TouchAction.up⟩]) ∧
    (onTouchStart ⟨0, 0, 100, 100⟩ ⟨false, [], 0⟩
        ⟨[⟨5, 50, 50⟩, ⟨6, 60, 60⟩], []⟩).2.map (fun m => m.action) = [TouchAction.down] :=
  ⟨C5_two_finger_gesture.1 ⟨0, 0, 100, 100⟩ ⟨1, 10, 10⟩ ⟨2, 20, 20⟩
      [(⟨1, 12, 12⟩, ⟨2, 22, 22⟩)] ⟨[], [⟨1, 12, 12⟩, ⟨2, 22, 22⟩]⟩ (by decide) (by decide),
   C5_two_finger_gesture.2.1 ⟨0, 0, 100, 100⟩ ⟨true, [(1, (1/10, 1/10)), (2, (1/5, 1/5))], 0⟩
      ⟨[⟨1, 10, 10⟩, ⟨2, 20, 20⟩, ⟨3, 30, 30⟩], []⟩ (1/10, 1/10) (1/5, 1/5)
      rfl rfl (by decide),
   C5_two_finger_gesture.2.2 ⟨0, 0, 100, 100⟩ ⟨false, [], 0⟩ ⟨5, 50, 50⟩ ⟨6, 60, 60⟩ []⟩

/-! ## Scroll accumulation lemmas -/

theorem runScroll_wheel_step (rect : Rect) (s : ScrollState) (e : WheelEvt)
    (evs : List ScrollEvent) :
    runScroll rect s (ScrollEvent.wheel e :: evs) =
      runScroll rect (onWheelEvent rect s e) evs := by
  rw [runScroll]
  simp [stepScroll]

/-- Running wheel events then a frame boundary flushes exactly the
buffer accumulated from the normalized, negated, step-divided deltas,
stamped with the last wheel position. -/
theorem runScroll_wheels_aux (rect : Rect) :
    ∀ (ws : List WheelEvt) (s : ScrollState) (w : WheelEvt),
      runScroll rect s ((ws ++ [w]).map ScrollEvent.wheel ++ [ScrollEvent.frame]) =
        processScrollBuffer
          ⟨s.scrollBufferX - ((ws ++ [w]).map wheelPixelDeltaX).sum / SCROLL_STEP,
           s.scrollBufferY - ((ws ++ [w]).map wheelPixelDeltaY).sum / SCROLL_STEP,
           (getNormalizedCoordsFromMouse rect w).1,
           (getNormalizedCoordsFromMouse rect w).2, true⟩ := by
  intro ws
  induction ws with
  | nil =>
    intro s w
    simp only [List.nil_append, List.map_cons, List.map_nil, List.cons_append,
      List.nil_append]
    rw [runScroll_wheel_step]
    have hs' : onWheelEvent rect s w =
        ⟨s.scrollBufferX - (wheelPixelDeltaX w + 0) / SCROLL_STEP,
         s.scrollBufferY - (wheelPixelDeltaY w + 0) / SCROLL_STEP,
         (getNormalizedCoordsFromMouse rect w).1,
         (getNormalizedCoordsFromMouse rect w).2, true⟩ := by
      simp only [onWheelEvent, ScrollState.mk.injEq]
      refine ⟨by ring, by ring, trivial, trivial, trivial⟩
    rw [hs']
    simp only [List.sum_cons, List.sum_nil]
    simp [runScroll, stepScroll]
  | cons e ws ih =>
    intro s w
    have hconsmap : ((e :: ws) ++ [w]).map ScrollEvent.wheel ++ [ScrollEvent.frame] =
        ScrollEvent.wheel e ::
          ((ws ++ [w]).map ScrollEvent.wheel ++ [ScrollEvent.frame]) := by
      simp
    rw [hconsmap, runScroll_wheel_step, ih]
    congr 1
    simp only [onWheelEvent, List.map_cons, List.sum_cons, List.cons_append,
      ScrollState.mk.injEq]
    refine ⟨by ring, by ring, trivial, trivial, trivial⟩

/-- C8: (1) wheel events themselves emit nothing — deltas only
accumulate; (2) a frame boundary emits at most one scroll message;
(3) after any wheel events ending at a frame boundary, starting from an
empty buffer, the flushed deltas are the accumulated pixel deltas
divided by the scroll step 200 and sign-inverted, stamped with the last
wheel position — and the flush is suppressed exactly when both
magnitudes are at or below the epsilon 1/10000. -/
theorem C8_scroll_accumulation :
    (∀ (rect : Rect) (s : ScrollState) (e : WheelEvt),
        (stepScroll rect s (ScrollEvent.wheel e)).2 = []) ∧
    (∀ (rect : Rect) (s : ScrollState),
        (stepScroll rect s ScrollEvent.frame).2.length ≤ 1) ∧
    (∀ (rect : Rect) (s : ScrollState) (ws : List WheelEvt) (w : WheelEvt),
        s.scrollBufferX = 0 → s.scrollBufferY = 0 →
        (runScroll rect s ((ws ++ [w]).map ScrollEvent.wheel ++ [ScrollEvent.frame])).2 =
          if SCROLL_THRESHOLD < |(-(((ws ++ [w]).map wheelPixelDeltaX).sum / SCROLL_STEP))| ∨
              SCROLL_THRESHOLD < |(-(((ws ++ [w]).map wheelPixelDeltaY).sum / SCROLL_STEP))| then
            [⟨(getNormalizedCoordsFromMouse rect w).1,
              (getNormalizedCoordsFromMouse rect w).2,
              -(((ws ++ [w]).map wheelPixelDeltaX).sum / SCROLL_STEP),
              -(((ws ++ [w]).map wheelPixelDeltaY).sum / SCROLL_STEP)⟩]
          else []) := by
  refine ⟨fun rect s e => rfl, fun rect s => ?_, fun rect s ws w hx hy => ?_⟩
  · cases hp : s.scrollRafPending
    · simp [stepScroll, hp]
    · simp only [stepScroll, hp, if_true, processScrollBuffer]
      split
      · simp
      · simp
  · rw [runScroll_wheels_aux, hx, hy]
    simp only [processScrollBuffer, zero_sub]
    split <;> rfl

/-- C8 witness: a single wheel-down of 400 pixels at client position
(5, 5) on a 100×100 canvas emits nothing by itself, and the following
frame boundary flushes exactly one message with deltas (0, −2) at the
normalized position (1/20, 1/20). -/
theorem C8_witness :
    (stepScroll ⟨0, 0, 100, 100⟩ ⟨0, 0, 0, 0, false⟩
        (ScrollEvent.wheel ⟨5, 5, 0, 400, 0⟩)).2 = [] ∧
    (stepScroll ⟨0, 0, 100, 100⟩ ⟨0, 0, 0, 0, false⟩ ScrollEvent.frame).2.length ≤ 1 ∧
    (runScroll ⟨0, 0, 100, 100⟩ ⟨0, 0, 0, 0, false⟩
        [ScrollEvent.wheel ⟨5, 5, 0, 400, 0⟩, ScrollEvent.frame]).2 =
      [⟨1/20, 1/20, 0, -2⟩] :=
  ⟨C8_scroll_accumulation.1 ⟨0, 0, 100, 100⟩ ⟨0, 0, 0, 0, false⟩ ⟨5, 5, 0, 400, 0⟩,
   C8_scroll_accumulation.2.1 ⟨0, 0, 100, 100⟩ ⟨0, 0, 0, 0, false⟩,
   (C8_scroll_accumulation.2.2 ⟨0, 0, 100, 100⟩ ⟨0, 0, 0, 0, false⟩ [] ⟨5, 5, 0, 400, 0⟩
      rfl rfl).trans (by
        norm_num [wheelPixelDeltaX, wheelPixelDeltaY, SCROLL_STEP, SCROLL_THRESHOLD,
          getNormalizedCoordsFromMouse])⟩

/-! ## Alternate control session lemmas -/

theorem ensureSession_truthy {net : WDANet} {s : WDAState} {sid : String}
    (hs : s.sessionId = some sid) (hne : sid ≠ "") :
    ensureSession net s = (s, [], Except.ok sid) := by
  unfold ensureSession
  rw [hs]
  simp [jsTruthyStr, hne]

/-- `createSession` never touches the touch flag and issues exactly the
session-creation request. -/
theorem createSession_shape (net : WDANet) (s : WDAState) :
    (createSession net s).1.touchActive = s.touchActive ∧
    (createSession net s).2.1 = [⟨"POST", "/session", some WDABody.sessionCaps⟩] := by
  constructor <;>
  · cases hnet : net ⟨"POST", "/session", some WDABody.sessionCaps⟩ with
    | error e => simp [createSession, wdaRequest, hnet]
    | ok resp =>
      by_cases hok : resp.ok = true
      · simp only [createSession, wdaRequest, hnet, if_pos hok]
        repeat' split
        all_goals rfl
      · simp [createSession, wdaRequest, hnet, hok]

/-- `ensureSession` never touches the touch flag and issues at most the
single session-creation request. -/
theorem ensureSession_shape (net : WDANet) (s : WDAState) :
    (ensureSession net s).1.touchActive = s.touchActive ∧
    ((ensureSession net s).2.1 = [] ∨
      (ensureSession net s).2.1 = [⟨"POST", "/session", some WDABody.sessionCaps⟩]) := by
  by_cases htr : jsTruthyStr s.sessionId = true
  · exact ⟨by simp [ensureSession, htr], Or.inl (by simp [ensureSession, htr])⟩
  · have hcs := createSession_shape net s
    exact ⟨by simpa [ensureSession, htr] using hcs.1,
      Or.inr (by simpa [ensureSession, htr] using hcs.2)⟩

/-- C6: with a live session, `down(x0,y0)` issues no request and records
the start; the following `up(x1,y1)` issues exactly one pointer-action
request — the tap chain at the recorded start when the squared distance
is below 100 (distance < 10 px), else the swipe chain from start to
end. -/
theorem C6_tap_swipe_classification :
    ∀ (net : WDANet) (s : WDAState) (sid : String) (x0 y0 x1 y1 : ℚ),
      s.sessionId = some sid → sid ≠ "" →
      (wdaTouch net s TouchAction.down x0 y0 =
        ({ s with touchActive := true, touchStartX := x0, touchStartY := y0 }, [],
         Except.ok ())) ∧
      ((x1 - x0) * (x1 - x0) + (y1 - y0) * (y1 - y0) < 100 →
        (wdaTouch net { s with touchActive := true, touchStartX := x0, touchStartY := y0 }
            TouchAction.up x1 y1).2.1 =
          [⟨"POST", "/session/" ++ sid ++ "/actions",
            some (WDABody.actionsChain (tapActions x0 y0))⟩]) ∧
      (¬ ((x1 - x0) * (x1 - x0) + (y1 - y0) * (y1 - y0) < 100) →
        (wdaTouch net { s with touchActive := true, touchStartX := x0, touchStartY := y0 }
            TouchAction.up x1 y1).2.1 =
          [⟨"POST", "/session/" ++ sid ++ "/actions",
            some (WDABody.actionsChain (swipeActions x0 y0 x1 y1 200))⟩]) := by
  intro net s sid x0 y0 x1 y1 hs hne
  have hens : ensureSession net s = (s, [], Except.ok sid) := ensureSession_truthy hs hne
  have hens' : ensureSession net
      { s with touchActive := true, touchStartX := x0, touchStartY := y0 } =
      ({ s with touchActive := true, touchStartX := x0, touchStartY := y0 }, [],
       Except.ok sid) := ensureSession_truthy (by simp [hs]) hne
  refine ⟨?_, fun hd => ?_, fun hd => ?_⟩
  · simp only [wdaTouch, hens]
  · simp only [wdaTouch, hens', if_true]
    rw [if_pos hd]
    simp [performTap, wdaRequest]
  · simp only [wdaTouch, hens', if_true]
    rw [if_neg hd]
    simp [performSwipe, wdaRequest]

/-- C6 witness: the spec's scenario — `down(100,200)`, `up(102,201)`
(distance < 10 px) issues exactly the tap chain at (100,200);
`down(100,200)`, `up(300,200)` issues exactly the swipe chain from
(100,200) to (300,200). -/
theorem C6_witness :
    (wdaTouch okRespNet wdaBaseState TouchAction.down 100 200 =
      ({ wdaBaseState with touchActive := true, touchStartX := 100, touchStartY := 200 },
       [], Except.ok ())) ∧
    ((wdaTouch okRespNet
        { wdaBaseState with touchActive := true, touchStartX := 100, touchStartY := 200 }
        TouchAction.up 102 201).2.1 =
      [⟨"POST", "/session/sid/actions", some (WDABody.actionsChain (tapActions 100 200))⟩]) ∧
    ((wdaTouch okRespNet
        { wdaBaseState with touchActive := true, touchStartX := 100, touchStartY := 200 }
        TouchAction.up 300 200).2.1 =
      [⟨"POST", "/session/sid/actions",
        some (WDABody.actionsChain (swipeActions 100 200 300 200 200))⟩]) :=
  ⟨(C6_tap_swipe_classification okRespNet wdaBaseState "sid" 100 200 102 201
      rfl (by decide)).1,
   (C6_tap_swipe_classification okRespNet wdaBaseState "sid" 100 200 102 201
      rfl (by decide)).2.1 (by norm_num),
   (C6_tap_swipe_classification okRespNet wdaBaseState "sid" 100 200 300 200
      rfl (by decide)).2.2 (by norm_num)⟩

/-- C7 counterexample: an action request failing with an error response
(the model of a missing/expired remote session) leaves the stored
session id `dead` in place, and the next call reuses `dead` — it issues
its action request only, not the `POST /session` re-creation the claim
requires. -/
theorem C7_counterexample :
    (wdaPressButton errRespNet deadState "home").1.sessionId = some "dead" ∧
    (wdaPressButton errRespNet deadState "home").2.2 =
      Except.error ⟨"WDA request failed"⟩ ∧
    (wdaPressButton errRespNet (wdaPressButton errRespNet deadState "home").1
        "home").2.1 =
      [⟨"POST", "/session/dead/wda/pressButton", some (WDABody.pressButtonBody "home")⟩] :=
  ⟨rfl, rfl, rfl⟩

/-- C7 (amended): when an alternate-control request fails with an error
response, the failing call is not retried within that call (exactly one
request is issued), and the stored session id is left unchanged — the
next call reuses the same session id and issues no `POST /session`;
session re-creation happens only once the stored id is cleared
(`sessionId = null`, as after `deleteSession`/`disconnect`), in which
case `ensureSession` issues `POST /session`. -/
theorem C7_no_retry_session_kept :
    (∀ (net : WDANet) (s : WDAState) (sid button : String),
      s.sessionId = some sid → sid ≠ "" →
      (wdaPressButton net s button).2.1.length = 1 ∧
      (wdaPressButton net s button).1.sessionId = some sid ∧
      (wdaPressButton net (wdaPressButton net s button).1 button).2.1.all
        (fun r => !(r.path == "/session")) = true) ∧
    (∀ (net : WDANet) (s : WDAState), s.sessionId = none →
      (ensureSession net s).2.1 = [⟨"POST", "/session", some WDABody.sessionCaps⟩]) := by
  constructor
  · intro net s sid button hs hne
    have hens : ensureSession net s = (s, [], Except.ok sid) := ensureSession_truthy hs hne
    have hone : wdaPressButton net s button =
        (s, [⟨"POST", "/session/" ++ sid ++ "/wda/pressButton",
              some (WDABody.pressButtonBody button)⟩],
         ((wdaRequest net "POST" ("/session/" ++ sid ++ "/wda/pressButton")
             (some (WDABody.pressButtonBody button))).2.map fun _ => ())) := by
      simp only [wdaPressButton, hens]
      rfl
    have hpathne : ("/session/" ++ sid ++ "/wda/pressButton") ≠ "/session" := by
      intro h
      have hlen := congrArg String.length h
      simp only [String.length_append] at hlen
      have h9 : ("/session/" : String).length = 9 := rfl
      have h16 : ("/wda/pressButton" : String).length = 16 := rfl
      have h8 : ("/session" : String).length = 8 := rfl
      rw [h9, h16, h8] at hlen
      omega
    refine ⟨by rw [hone]; rfl, by rw [hone]; exact hs, ?_⟩
    rw [hone]
    show (wdaPressButton net s button).2.1.all _ = true
    rw [hone]
    simp [hpathne]
  · intro net s h
    have hfalse : jsTruthyStr s.sessionId = false := by rw [h]; rfl
    have hcs := (createSession_shape net s).2
    simpa [ensureSession, hfalse] using hcs

/-- C7 witness: on a network answering every request with an error
response, a client holding session id `dead` issues exactly one request,
keeps `dead`, and its next call issues no `POST /session`; a client with
no stored id issues exactly the `POST /session` creation request. -/
theorem C7_witness :
    ((wdaPressButton errRespNet deadState "volumeUp").2.1.length = 1 ∧
     (wdaPressButton errRespNet deadState "volumeUp").1.sessionId = some "dead" ∧
     (wdaPressButton errRespNet (wdaPressButton errRespNet deadState "volumeUp").1
        "volumeUp").2.1.all (fun r => !(r.path == "/session")) = true) ∧
    (ensureSession errRespNet ⟨none, false, 0, 0⟩).2.1 =
      [⟨"POST", "/session", some WDABody.sessionCaps⟩] :=
  ⟨C7_no_retry_session_kept.1 errRespNet deadState "dead" "volumeUp" rfl (by decide),
   C7_no_retry_session_kept.2 errRespNet ⟨none, false, 0, 0⟩ rfl⟩

/-- C10: calling `touch('up')` or `touch('move')` with no touch active
issues no pointer-action request — every logged request is at most the
lazy `POST /session` — and the touch-active flag stays false. -/
theorem C10_touch_without_down :
    ∀ (net : WDANet) (s : WDAState) (x y : ℚ) (act : TouchAction),
      s.touchActive = false → act ≠ TouchAction.down →
      ((wdaTouch net s act x y).2.1.all (fun r => !(isActionsRequest r)) = true) ∧
      ((wdaTouch net s act x y).1.touchActive = false) ∧
      ((wdaTouch net s act x y).2.1.all (fun r => r.path == "/session") = true) := by
  intro net s x y act hta hact
  obtain ⟨hactive, hlog⟩ := ensureSession_shape net s
  rcases hE : ensureSession net s with ⟨s1, log1, r1⟩
  rw [hE] at hactive hlog
  simp only [] at hactive hlog
  have hta1 : s1.touchActive = false := by rw [hactive, hta]
  have hlogok : log1.all (fun r => !(isActionsRequest r)) = true ∧
      log1.all (fun r => r.path == "/session") = true := by
    rcases hlog with h | h <;> rw [h] <;> exact ⟨rfl, rfl⟩
  cases r1 with
  | error e =>
    simp only [wdaTouch, hE]
    exact ⟨hlogok.1, hta1, hlogok.2⟩
  | ok sid =>
    cases act with
    | down => exact absurd rfl hact
    | move =>
      simp only [wdaTouch, hE]
      exact ⟨hlogok.1, hta1, hlogok.2⟩
    | up =>
      simp only [wdaTouch, hE, hta1, Bool.false_eq_true, if_false]
      exact ⟨hlogok.1, by simp [hta1], hlogok.2⟩

/-- C10 witness: a `move` with no stored session and no active touch
lazily creates a session only — the log holds no pointer-action request,
every entry is the `POST /session`, and the flag stays false. -/
theorem C10_witness :
    ((wdaTouch okRespNet ⟨none, false, 0, 0⟩ TouchAction.move 5 5).2.1.all
        (fun r => !(isActionsRequest r)) = true) ∧
    ((wdaTouch okRespNet ⟨none, false, 0, 0⟩ TouchAction.move 5 5).1.touchActive = false) ∧
    ((wdaTouch okRespNet ⟨none, false, 0, 0⟩ TouchAction.move 5 5).2.1.all
        (fun r => r.path == "/session") = true) :=
  C10_touch_without_down okRespNet ⟨none, false, 0, 0⟩ 5 5 TouchAction.move rfl (by decide)
